import Mathlib

/-!
Verification development for the `covid_no2_viewer` data-preparation pipeline
(`data_utils.py`, `postprocess_data.py`, `calculate_city_data.py`).

Modelling conventions (shallow embedding):
  * Raster pixel samples are rationals; an IEEE NaN (or other non-finite
    sample) is modelled as `Option.none`, since the code treats non-finite
    samples only as "absent" markers.
  * Values that the Python code can set to IEEE `nan`/`inf` (the t statistic
    and the p-value of `scipy.stats.ttest_ind`) are modelled by `FVal`.
  * Square roots make the t statistic, the standard deviations and Cohen's d
    irrational.  The embedding therefore carries the *variance* where the code
    carries the standard deviation, and encodes a value `x` obtained as
    `d / sqrt(s)` by the rational `sign d * d^2 / s` (that is, `x * |x|`),
    which determines `x` uniquely and preserves sign, zero and swapping.
  * The transcendental two-sided Student-t p-value `2 * sf(|t|, df)` of scipy
    is abstracted as a parameter `sf2 : ℚ → ℕ → ℚ` applied to the square of
    the t statistic and to the degrees of freedom, which is exactly the data
    the scipy computation depends on for finite t.
  * File-system interaction is represented by passing the outcome of each
    file access (`missing`, read `error`, or the decoded grid) as data.
-/

/-! ## Elementary list statistics (`np.mean`, `np.std(ddof=1)`) -/

/-- Mean of a list of rationals, `np.mean`; division by zero on `[]` gives 0. -/
def lmean (l : List ℚ) : ℚ := l.sum / l.length

/-- Sample variance with Bessel correction, the square of `np.std(l, ddof=1)`. -/
def lvar (l : List ℚ) : ℚ :=
  (l.map (fun x => (x - lmean l) ^ 2)).sum / ((l.length : ℚ) - 1)

/-! ## Float values that may be NaN or infinite -/

/-- Result of a floating-point computation: a finite rational, NaN, or a
signed infinity. -/
inductive FVal where
  | val (q : ℚ)
  | nan
  | inf (pos : Bool)
deriving DecidableEq, Repr

/-- Python comparison `f < a` for a float `f` against a finite rational `a`:
`nan < a` is `False`, `+inf < a` is `False`, `-inf < a` is `True`. -/
def FVal.ltQ : FVal → ℚ → Bool
  | .val q, a => decide (q < a)
  | .nan, _ => false
  | .inf pos, _ => !pos

/-! ## Zonal statistics (`rasterstats.zonal_stats(..., stats=['mean'])`)

`zonal_stats` rasterizes the polygon, masks every cell outside it, masks NaN
cells, masks cells equal to the `nodata` argument (no cell when `nodata` is
`None`, which is the default when only a bare numpy array is passed), and
returns the mean of the remaining cells, or `None` when none remain.  A pixel
is modelled by its rasterization flag and its sample. -/

/-- One raster cell as seen by `zonal_stats`: whether the polygon
rasterization covers it, and its sample (`none` models NaN). -/
structure ZPixel where
  inPoly : Bool
  value : Option ℚ
deriving DecidableEq, Repr

/-- The `mean` statistic of `rasterstats.zonal_stats` over one geometry:
cells outside the polygon, NaN cells and cells equal to `nodata` are masked;
the mean of the surviving cells is returned, `none` when all are masked. -/
def zonal_mean (nodata : Option ℚ) (px : List ZPixel) : Option ℚ :=
  let valid := px.filterMap (fun p =>
    if p.inPoly then
      match p.value with
      | none => none
      | some q => if nodata = some q then none else some q
    else none)
  if valid = [] then none else some (lmean valid)

/-! ## Monthly lookup path (`calculate_period_no2_coord_polygon`)

`data_utils.py` lines 27-53: a missing file returns `None`; any exception
while reading or computing statistics is caught and returns `None`; otherwise
`zonal_stats` is called on the raw first band `src.read(1)` WITHOUT passing
`nodata=src.nodata`, so the file's nodata tag plays no role in the masking. -/

/-- Outcome of opening the monthly GeoTIFF: absent file, a raised read error,
or the decoded band together with the file's nodata tag. -/
inductive MonthlyFile where
  | missing
  | readError
  | ok (nodata : Option ℚ) (px : List ZPixel)
deriving DecidableEq, Repr

/-- `calculate_period_no2_coord_polygon` after path formatting: `None` on a
missing file or any caught exception, otherwise the `zonal_stats` mean of the
raw band.  The call omits the `nodata` argument, hence `zonal_mean none`. -/
def calculate_period_no2_coord_polygon : MonthlyFile → Option ℚ
  | .missing => none
  | .readError => none
  | .ok _nodata px => zonal_mean none px

/-- Timepoint assembly, `calculate_city_data.py` line 116:
`'value': no2_value if no2_value else 0.0` — a falsy lookup result (`None`
or `0.0`) is recorded as `0.0`. -/
def record_value : Option ℚ → ℚ
  | none => 0
  | some q => if q = 0 then 0 else q

/-! ## Daily series extraction (`_extract_daily_no2_for_month`)

`data_utils.py` lines 196-256: for every day of the month, a missing file is
skipped, a raised read error is caught and skipped, an undefined zonal mean
(`None` or NaN) is skipped, and otherwise the mean is appended; a fully empty
collection is returned as `None`. -/

/-- Outcome of opening one day's GeoTIFF. -/
inductive DayFile where
  | missing
  | readError
  | ok (nodata : Option ℚ) (px : List ZPixel)
deriving DecidableEq, Repr

/-- The loop body of `_extract_daily_no2_for_month`, collecting the defined
daily means in day order.  Unlike the monthly path, the daily path passes
`nodata=src.nodata` to `zonal_stats`. -/
def collect_daily : List DayFile → List ℚ
  | [] => []
  | .missing :: ds => collect_daily ds
  | .readError :: ds => collect_daily ds
  | .ok nodata px :: ds =>
    match zonal_mean nodata px with
    | none => collect_daily ds
    | some v => v :: collect_daily ds

/-- `_extract_daily_no2_for_month`, with the per-day file outcomes supplied
as data (one entry per calendar day of the month): returns `None` when no day
produced a defined mean, otherwise the list of defined daily means. -/
def _extract_daily_no2_for_month (days : List DayFile) : Option (List ℚ) :=
  if collect_daily days = [] then none else some (collect_daily days)

/-- Specification-side description of one day's contribution: a defined
zonal mean for a readable file, `none` otherwise. -/
def day_outcome : DayFile → Option ℚ
  | .missing => none
  | .readError => none
  | .ok nodata px => zonal_mean nodata px

/-- Whether the day's raster file is present on disk. -/
def day_has_file : DayFile → Bool
  | .missing => false
  | .readError => true
  | .ok _ _ => true

/-! ## Significance test (`calculate_no2_significance`)

`data_utils.py` lines 56-179.  The period handling and file extraction have
been dealt with above; here the function is embedded from the point where the
two day-series are in hand (line 115 onward): `target_daily` is `None` or a
list, `baseline_daily_all` is the pooled list from all baseline periods. -/

/-- Pooling of the baseline extractions (lines 92-108): every non-`None`
per-period series is concatenated onto `baseline_daily_all`. -/
def pool_baselines (bs : List (Option (List ℚ))) : List ℚ :=
  (bs.filterMap id).flatten

/-- Number of defined values in the target series (`None` counts as 0). -/
def target_count : Option (List ℚ) → ℕ
  | none => 0
  | some l => l.length

/-- The square of the `scipy.stats.ttest_ind(a, b)` denominator (default
`equal_var=True`): `svar * (1/n1 + 1/n2)` with
`svar = ((n1-1)*v1 + (n2-1)*v2) / (n1+n2-2)`. -/
def ttest_den2 (a b : List ℚ) : ℚ :=
  (((a.length : ℚ) - 1) * lvar a + ((b.length : ℚ) - 1) * lvar b) /
      ((a.length : ℚ) + (b.length : ℚ) - 2) *
    (1 / (a.length : ℚ) + 1 / (b.length : ℚ))

/-- The square of the `ttest_ind(a, b)` t statistic. -/
def ttest_tsq (a b : List ℚ) : ℚ :=
  (lmean a - lmean b) ^ 2 / ttest_den2 a b

/-- Sign-preserving square encoding: `x * |x|` for the real
`x = d / sqrt(s)`, expressed rationally. -/
def signed_sq (d s : ℚ) : ℚ :=
  if 0 ≤ d then d ^ 2 / s else -(d ^ 2 / s)

/-- The t statistic of `ttest_ind(a, b)` (default `equal_var=True`), encoded
as `t * |t|` when finite; a zero denominator gives `nan` (0/0) or a signed
infinity (d/0), exactly as `np.divide` does in scipy. -/
def ttest_t (a b : List ℚ) : FVal :=
  if 0 < ttest_den2 a b then .val (signed_sq (lmean a - lmean b) (ttest_den2 a b))
  else if lmean a - lmean b = 0 then .nan
  else .inf (decide (0 < lmean a - lmean b))

/-- The two-sided p-value of `ttest_ind(a, b)`: `2*sf(|t|, df)` for finite t,
abstracted as `sf2` applied to `t^2` and `df`; `nan` for a NaN t; `0` for an
infinite t (the survival function vanishes at infinity). -/
def ttest_p (sf2 : ℚ → ℕ → ℚ) (a b : List ℚ) : FVal :=
  if 0 < ttest_den2 a b then
    .val (sf2 (ttest_tsq a b) (a.length + b.length - 2))
  else if lmean a - lmean b = 0 then .nan
  else .val 0

/-- The full-verdict dictionary of `calculate_no2_significance` (lines
164-179).  `t_statistic` is encoded as `t * |t|` (see `ttest_t`),
`target_var`/`baseline_var` are the squares of the reported standard
deviations, and `cohens_d` is encoded as `d * |d|`.  The human-readable
`interpretation` string (a pure function of `significant`, `p_value` and
`cohens_d`) is not modelled. -/
structure Verdict where
  significant : Bool
  p_value : FVal
  t_statistic : FVal
  target_mean : ℚ
  baseline_mean : ℚ
  target_var : ℚ
  baseline_var : ℚ
  percent_change : ℚ
  cohens_d : ℚ
  n_target : ℕ
  n_baseline : ℕ
deriving DecidableEq, Repr

/-- The pooled variance of lines 143-147: the square of `pooled_std`. -/
def pooled_var (a b : List ℚ) : ℚ :=
  (((a.length : ℚ) - 1) * lvar a + ((b.length : ℚ) - 1) * lvar b) /
    ((a.length : ℚ) + (b.length : ℚ) - 2)

/-- Lines 133-179 of `calculate_no2_significance`: the statistics computed
once both groups passed the size gate.  `a` is `baseline_daily_all` and `b`
is `target_daily`, in the argument order of `ttest_ind(a, b)`. -/
def compute_verdict (sf2 : ℚ → ℕ → ℚ) (alpha : ℚ) (a b : List ℚ) : Verdict :=
  let tm := lmean b
  let bm := lmean a
  let p := ttest_p sf2 a b
  { significant := p.ltQ alpha
    p_value := p
    t_statistic := ttest_t a b
    target_mean := tm
    baseline_mean := bm
    target_var := lvar b
    baseline_var := lvar a
    percent_change := if bm ≠ 0 then (tm - bm) / bm * 100 else 0
    cohens_d := if 0 < pooled_var a b then signed_sq (tm - bm) (pooled_var a b) else 0
    n_target := b.length
    n_baseline := a.length }

/-- Result of `calculate_no2_significance`: either the insufficient-data
sentinel dictionary `{'significant': False, 'p_value': 1.0, ...}` of lines
117-121 and 127-131, or the full verdict. -/
inductive SigResult where
  | insufficient
  | full (v : Verdict)
deriving DecidableEq, Repr

/-- The `'p_value'` entry of the returned dictionary (1.0 in the sentinel). -/
def SigResult.p_value : SigResult → FVal
  | .insufficient => .val 1
  | .full v => v.p_value

/-- The `'significant'` entry of the returned dictionary. -/
def SigResult.significant : SigResult → Bool
  | .insufficient => false
  | .full v => v.significant

/-- The `'percent_change'` entry; 0 by convention on the sentinel, which has
no such key. -/
def SigResult.percent_change : SigResult → ℚ
  | .insufficient => 0
  | .full v => v.percent_change

/-- The `'cohens_d'` entry (encoded as `d * |d|`); 0 by convention on the
sentinel, which has no such key. -/
def SigResult.cohens_d : SigResult → ℚ
  | .insufficient => 0
  | .full v => v.cohens_d

/-- `calculate_no2_significance` from line 115 onward: the target series is
`None` (extraction found no day) or a list; `baseline_pooled` is
`baseline_daily_all`.  Either group below 3 samples short-circuits to the
sentinel before `ttest_ind` is reached. -/
def calculate_no2_significance (sf2 : ℚ → ℕ → ℚ) (alpha : ℚ)
    (target_daily : Option (List ℚ)) (baseline_pooled : List ℚ) : SigResult :=
  match target_daily with
  | none => .insufficient
  | some t =>
    if baseline_pooled.length < 3 ∨ t.length < 3 then .insufficient
    else .full (compute_verdict sf2 alpha baseline_pooled t)

/-- The default significance level `alpha=0.05` of the source. -/
def default_alpha : ℚ := 1 / 20

/-- A concrete stand-in for the abstracted scipy p-value function, used to
close universally quantified statements at an explicit input.  Branches that
never consult the p-value function are independent of this choice. -/
def sf2_zero : ℚ → ℕ → ℚ := fun _ _ => 0

/-- Two-sample t statistic squared written as the spec words it (pooled
standard deviation across both groups weighted by degrees of freedom):
`d^2 * n1 * n2 * (n1+n2-2) / ((n1+n2) * ((n1-1)*v1 + (n2-1)*v2))`. -/
def pooled_tsq_spec (a b : List ℚ) : ℚ :=
  (lmean a - lmean b) ^ 2 *
      ((a.length : ℚ) * (b.length : ℚ) * ((a.length : ℚ) + (b.length : ℚ) - 2)) /
    (((a.length : ℚ) + (b.length : ℚ)) *
      (((a.length : ℚ) - 1) * lvar a + ((b.length : ℚ) - 1) * lvar b))

/-- Modelled from the spec: the squared t statistic of the Welch
(unequal-variance) two-sample test, `d^2 / (v1/n1 + v2/n2)`, which the spec
asserts the code performs.  Used only to compare against the source's
`ttest_ind` call. -/
def welch_tsq_spec (a b : List ℚ) : ℚ :=
  (lmean a - lmean b) ^ 2 / (lvar a / (a.length : ℚ) + lvar b / (b.length : ℚ))

/-! ## Period parsing (`_parse_period` and the bare-year baseline branch)

`data_utils.py` lines 182-193 and 95-100.  Python strings are modelled as
`List Char`; all the `ValueError`s raised along the way (failed `int()`,
unpacking a split of the wrong arity, out-of-range `datetime` fields, the
final `raise`) collapse to `Option.none`. -/

/-- Whether a character is an ASCII decimal digit. -/
def isDig (c : Char) : Bool := decide (48 ≤ c.toNat ∧ c.toNat ≤ 57)

/-- Numeric value of an ASCII digit character. -/
def dval (c : Char) : ℕ := c.toNat - 48

/-- Digit-group tail of Python `int()` over a decimal string: after an
initial digit, further digits may follow, with single underscores allowed
strictly between digits (`int('1_23') == 123`, `int('1__2')` and `int('1_')`
raise). -/
def py_digits (acc : ℕ) : List Char → Option ℕ
  | [] => some acc
  | c :: cs =>
    if isDig c then py_digits (acc * 10 + dval c) cs
    else if c = '_' then
      match cs with
      | [] => none
      | c2 :: cs2 => if isDig c2 then py_digits (acc * 10 + dval c2) cs2 else none
    else none

/-- Python `int()` on an unsigned decimal string: must start with a digit. -/
def py_nat : List Char → Option ℕ
  | [] => none
  | c :: cs => if isDig c then py_digits (dval c) cs else none

/-- Python `int()` on a decimal string with an optional sign. -/
def py_int (s : List Char) : Option ℤ :=
  match s with
  | [] => none
  | c :: rest =>
    if c = '-' then (py_nat rest).map (fun n => -(n : ℤ))
    else if c = '+' then (py_nat rest).map (fun n => (n : ℤ))
    else (py_nat s).map (fun n => (n : ℤ))

/-- Python `str.split(sep)` for a one-character separator: splits on every
occurrence, keeping empty parts; the result is always nonempty. -/
def split_on_char (c : Char) : List Char → List (List Char)
  | [] => [[]]
  | x :: xs =>
    if x = c then [] :: split_on_char c xs
    else
      match split_on_char c xs with
      | [] => [[x]]
      | h :: t => (x :: h) :: t

/-- `datetime(year, month, 1)`: succeeds only for `1 <= year <= 9999` and
`1 <= month <= 12`, returning the `(year, month)` pair the pipeline uses. -/
def mk_datetime (y m : ℤ) : Option (ℕ × ℕ) :=
  if 1 ≤ y ∧ y ≤ 9999 ∧ 1 ≤ m ∧ m ≤ 12 then some (y.toNat, m.toNat) else none

/-- A period representation reaching `_parse_period`: a `datetime` value
(only its year and month matter downstream) or a Python string. -/
inductive PyPeriod where
  | dt (year month : ℕ)
  | str (s : List Char)
deriving DecidableEq, Repr

/-- `_parse_period` (lines 182-193): a `datetime` passes through; a string
containing `'_'` (checked first) or `'-'` is split on that separator and must
yield exactly two `int()`-parseable parts forming a valid `datetime`; any
other string raises, modelled as `none`. -/
def _parse_period : PyPeriod → Option (ℕ × ℕ)
  | .dt y m => some (y, m)
  | .str s =>
    if '_' ∈ s then
      match split_on_char '_' s with
      | [ys, ms] =>
        (py_int ys).bind fun y => (py_int ms).bind fun m => mk_datetime y m
      | _ => none
    else if '-' ∈ s then
      match split_on_char '-' s with
      | [ys, ms] =>
        (py_int ys).bind fun y => (py_int ms).bind fun m => mk_datetime y m
      | _ => none
    else none

/-- The baseline-period branch of `calculate_no2_significance` (lines
95-100): a representation whose `str()` has length 4 is treated as a bare
year and paired with the target's month; everything else goes through
`_parse_period`.  `str(datetime(...))` has length 19, never 4. -/
def resolve_baseline_period (target_month : ℕ) : PyPeriod → Option (ℕ × ℕ)
  | .str s =>
    if s.length = 4 then (py_int s).bind fun y => mk_datetime y (target_month : ℤ)
    else _parse_period (.str s)
  | .dt y m => _parse_period (.dt y m)

/-- ASCII digit character for `d < 10`. -/
def digit_char : ℕ → Char
  | 0 => '0'
  | 1 => '1'
  | 2 => '2'
  | 3 => '3'
  | 4 => '4'
  | 5 => '5'
  | 6 => '6'
  | 7 => '7'
  | 8 => '8'
  | _ => '9'

/-- Four-digit zero-padded rendering, `strftime('%Y')` for years up to 9999. -/
def pad4 (y : ℕ) : List Char :=
  [digit_char (y / 1000 % 10), digit_char (y / 100 % 10),
   digit_char (y / 10 % 10), digit_char (y % 10)]

/-- Two-digit zero-padded rendering, `strftime('%m')`. -/
def pad2 (m : ℕ) : List Char :=
  [digit_char (m / 10 % 10), digit_char (m % 10)]

/-- `strftime('%Y_%m')`: the underscore period format. -/
def format_period_u (y m : ℕ) : List Char := pad4 y ++ '_' :: pad2 m

/-- `strftime('%Y-%m')`: the dash period format. -/
def format_period_d (y m : ℕ) : List Char := pad4 y ++ '-' :: pad2 m

/-- Modelled from the spec: whether a string is one of the accepted textual
period formats — `"YYYY_MM"`, `"YYYY-MM"`, or a 4-digit bare year. -/
def matches_accepted_format (s : List Char) : Bool :=
  (match s with
   | [a, b, c, d, e, f, g] =>
     isDig a && isDig b && isDig c && isDig d && (e = '_' || e = '-') &&
       isDig f && isDig g
   | _ => false) ||
  (s.length = 4 && s.all isDig)

/-! ## Monthly aggregation (`aggregate_daily_to_monthly`)

`postprocess_data.py` lines 114-170, the per-month body.  Each daily band is
read, cast to float32, its file-tagged nodata values replaced by NaN, the
stack averaged per pixel by `np.nanmean`, and all-NaN pixels set to the
output sentinel `-9999.0`.  Grids for one month share their shape (`width`
pixels after flattening). -/

/-- One daily raster band with the file's nodata tag (`none` when the file
carries no tag); `none` samples model NaN. -/
structure DailyGrid where
  values : List (Option ℚ)
  nodata : Option ℚ
deriving DecidableEq, Repr

/-- `data[data == src.nodata] = np.nan` (applied only when the file has a
nodata tag): the band with nodata replaced by NaN. -/
def to_nan (g : DailyGrid) : List (Option ℚ) :=
  g.values.map (fun v =>
    match v, g.nodata with
    | some q, some nd => if q = nd then none else some q
    | v, _ => v)

/-- The valid (finite, non-nodata) samples at pixel `i` across the stack of
daily grids. -/
def pixel_samples (grids : List DailyGrid) (i : ℕ) : List ℚ :=
  grids.filterMap (fun g => (to_nan g).getD i none)

/-- `np.nanmean` over the time axis at pixel `i`, followed by the all-NaN →
`-9999.0` replacement of lines 151-155. -/
def nanmean_pixel (grids : List DailyGrid) (i : ℕ) : ℚ :=
  if pixel_samples grids i = [] then -9999 else lmean (pixel_samples grids i)

/-- Gregorian leap-year rule, as in `calendar.monthrange`. -/
def is_leap (y : ℕ) : Bool := y % 4 = 0 && (y % 100 ≠ 0 || y % 400 = 0)

/-- `calendar.monthrange(y, m).1`: the day count of the month. -/
def month_length (y m : ℕ) : ℕ :=
  if m = 2 then (if is_leap y then 29 else 28)
  else if m = 4 ∨ m = 6 ∨ m = 9 ∨ m = 11 then 30
  else 31

/-- The per-month body of `aggregate_daily_to_monthly`: with
`require_all_days` set, a month whose file count differs from its calendar
day count is skipped (`none`); otherwise the monthly composite grid is
produced pixel by pixel. -/
def aggregate_daily_to_monthly (year month : ℕ) (require_all_days : Bool)
    (grids : List DailyGrid) (width : ℕ) : Option (List ℚ) :=
  if require_all_days ∧ grids.length ≠ month_length year month then none
  else some ((List.range width).map (nanmean_pixel grids))

/-! ## Helper lemmas -/

/-- `collect_daily` is the in-order selection of the defined daily means. -/
theorem collect_daily_eq_filterMap (days : List DayFile) :
    collect_daily days = days.filterMap day_outcome := by
  induction days with
  | nil => rfl
  | cons d ds ih =>
    cases d with
    | missing => simpa [collect_daily, day_outcome] using ih
    | readError => simpa [collect_daily, day_outcome] using ih
    | ok nd px =>
      simp only [collect_daily, day_outcome, List.filterMap_cons]
      cases zonal_mean nd px <;> simp [ih]

/-- The defined daily means are at most as many as the days with a file. -/
theorem filterMap_day_outcome_length_le (days : List DayFile) :
    (days.filterMap day_outcome).length ≤ (days.filter day_has_file).length := by
  induction days with
  | nil => simp
  | cons d ds ih =>
    cases d with
    | missing => simpa [day_outcome, day_has_file] using ih
    | readError =>
      simp only [day_outcome, day_has_file, List.filterMap_cons, List.filter_cons]
      simp only [if_true]
      calc (ds.filterMap day_outcome).length ≤ _ := ih
        _ ≤ _ := Nat.le_succ _
    | ok nd px =>
      simp only [day_outcome, day_has_file, List.filterMap_cons, List.filter_cons, if_true]
      cases zonal_mean nd px with
      | none => exact le_trans ih (Nat.le_succ _)
      | some v => simpa using ih

/-! ## C1: nodata exclusion in the two zonal-mean consumers -/

/-- C1 (code bug, failing input): a monthly composite whose single in-polygon
pixel holds the nodata sentinel −9999.  The monthly-lookup path
`calculate_period_no2_coord_polygon` calls `zonal_stats` on the raw band
without forwarding `nodata=src.nodata`, so the sentinel is averaged as data
and the path returns −9999 instead of the undefined marker `None` that the
claim requires; the daily path, which does forward the nodata tag to the same
primitive, excludes it and yields the undefined marker. -/
theorem monthly_lookup_includes_nodata_sentinel :
    calculate_period_no2_coord_polygon
        (.ok (some (-9999)) [⟨true, some (-9999)⟩]) = some (-9999) ∧
    zonal_mean (some (-9999)) [⟨true, some (-9999)⟩] = none := by
  constructor
  · show zonal_mean none [⟨true, some (-9999)⟩] = some (-9999)
    simp [zonal_mean, List.filterMap_cons, lmean]
  · simp [zonal_mean, List.filterMap_cons]

/-! ## C10: conflation of missing data with a genuine zero in the lookup path -/

/-- C10: `calculate_period_no2_coord_polygon` never raises — a missing
monthly raster and any caught read/statistics exception both yield `None` —
and the timepoint assembly `no2_value if no2_value else 0.0` records 0.0 for
a falsy lookup result, so a missing file, a failed read, and a genuinely
computed zonal mean of exactly 0.0 all produce the identical record value
0.0. -/
theorem monthly_lookup_zero_conflation (nodata : Option ℚ) (px : List ZPixel)
    (h : zonal_mean none px = some 0) :
    calculate_period_no2_coord_polygon .missing = none ∧
    calculate_period_no2_coord_polygon .readError = none ∧
    record_value (calculate_period_no2_coord_polygon .missing) = 0 ∧
    record_value (calculate_period_no2_coord_polygon .readError) = 0 ∧
    record_value (calculate_period_no2_coord_polygon (.ok nodata px)) = 0 := by
  refine ⟨rfl, rfl, rfl, rfl, ?_⟩
  simp [calculate_period_no2_coord_polygon, h, record_value]

/-- C10 witness: a polygon covering a single pixel of value 0 has zonal mean
0, and its record value coincides with that of the missing-file case. -/
theorem monthly_lookup_zero_conflation_witness :
    zonal_mean none [⟨true, some 0⟩] = some 0 ∧
    record_value (calculate_period_no2_coord_polygon (.ok none [⟨true, some 0⟩])) = 0 ∧
    record_value (calculate_period_no2_coord_polygon .missing) = 0 :=
  ⟨by simp [zonal_mean, List.filterMap_cons, lmean],
   (monthly_lookup_zero_conflation none [⟨true, some 0⟩]
      (by simp [zonal_mean, List.filterMap_cons, lmean])).2.2.2.2,
   (monthly_lookup_zero_conflation none [⟨true, some 0⟩]
      (by simp [zonal_mean, List.filterMap_cons, lmean])).2.2.1⟩

/-! ## C2: the insufficient-data gate of the significance test -/

/-- C2: when the target series has fewer than 3 defined values (a `None`
target counts as 0) or the pooled baseline sample has fewer than 3 values,
`calculate_no2_significance` returns the insufficient-data sentinel with
p-value 1.0 and `significant = False`, for every choice of the p-value
function `sf2` — i.e. without running the t-test — and regardless of the
size of the other group. -/
theorem insufficient_data_sentinel (sf2 : ℚ → ℕ → ℚ) (alpha : ℚ)
    (target : Option (List ℚ)) (bs : List (Option (List ℚ)))
    (h : target_count target < 3 ∨ (pool_baselines bs).length < 3) :
    calculate_no2_significance sf2 alpha target (pool_baselines bs) =
      .insufficient ∧
    (calculate_no2_significance sf2 alpha target (pool_baselines bs)).p_value =
      .val 1 ∧
    (calculate_no2_significance sf2 alpha target (pool_baselines bs)).significant =
      false := by
  have hins : calculate_no2_significance sf2 alpha target (pool_baselines bs) =
      .insufficient := by
    cases target with
    | none => rfl
    | some t =>
      have hcond : (pool_baselines bs).length < 3 ∨ t.length < 3 := by
        rcases h with h | h
        · exact Or.inr (by simpa [target_count] using h)
        · exact Or.inl h
      simp [calculate_no2_significance, if_pos hcond]
  exact ⟨hins, by rw [hins]; rfl, by rw [hins]; rfl⟩

/-- C2 witness: a target series with only two defined values forces the
sentinel even against a baseline of three values. -/
theorem insufficient_data_sentinel_witness :
    calculate_no2_significance sf2_zero default_alpha (some [1, 2])
        (pool_baselines [some [1, 2, 3]]) = .insufficient ∧
    (calculate_no2_significance sf2_zero default_alpha (some [1, 2])
        (pool_baselines [some [1, 2, 3]])).p_value = .val 1 ∧
    (calculate_no2_significance sf2_zero default_alpha (some [1, 2])
        (pool_baselines [some [1, 2, 3]])).significant = false :=
  insufficient_data_sentinel sf2_zero default_alpha (some [1, 2])
    [some [1, 2, 3]] (by decide)

/-! ## C6: the daily-series extraction -/

/-- C6 (counterexample): a month none of whose daily files is present makes
`_extract_daily_no2_for_month` return `None`, a distinct null value, and not
the empty series that the claim asserts. -/
theorem daily_series_empty_returns_none :
    _extract_daily_no2_for_month (List.replicate 28 DayFile.missing) = none ∧
    _extract_daily_no2_for_month (List.replicate 28 DayFile.missing) ≠
      some [] := by
  constructor <;> decide

/-- C6 (amended): the daily-series extraction returns exactly the ordered
list of defined per-day zonal means — absent files and undefined means are
skipped, the series is never padded beyond the days that have a file — except
that a month with no defined day yields the null marker `None` rather than an
empty list. -/
theorem daily_series_extraction_spec (days : List DayFile) :
    _extract_daily_no2_for_month days =
      (if days.filterMap day_outcome = [] then none
       else some (days.filterMap day_outcome)) ∧
    (days.filterMap day_outcome).length ≤ (days.filter day_has_file).length := by
  refine ⟨?_, filterMap_day_outcome_length_le days⟩
  rw [_extract_daily_no2_for_month, collect_daily_eq_filterMap]

/-! ## C7: guarded divisions in the significance statistics -/

/-- C7: with at least 3 samples in each group the full verdict is returned
(no exception is possible: the computation is total), Cohen's d is defined as
0 whenever the pooled standard deviation is 0 (i.e. the pooled variance is
0), and the percent change is defined as 0 whenever the baseline mean is
exactly 0. -/
theorem zero_division_guards (sf2 : ℚ → ℕ → ℚ) (alpha : ℚ) (a b : List ℚ)
    (ha : 3 ≤ a.length) (hb : 3 ≤ b.length) :
    ∃ v, calculate_no2_significance sf2 alpha (some b) a = .full v ∧
      (pooled_var a b = 0 → v.cohens_d = 0) ∧
      (lmean a = 0 → v.percent_change = 0) := by
  refine ⟨compute_verdict sf2 alpha a b, ?_, ?_, ?_⟩
  · simp only [calculate_no2_significance]
    rw [if_neg (by omega)]
  · intro h
    simp [compute_verdict, h]
  · intro h
    simp [compute_verdict, h]

/-- C7 witness: two identical constant series, each of three samples, yield
a full verdict with Cohen's d 0 and percent change 0 and no fault. -/
theorem zero_division_guards_witness :
    calculate_no2_significance sf2_zero default_alpha (some [0, 0, 0])
        [0, 0, 0] ≠ SigResult.insufficient ∧
    (calculate_no2_significance sf2_zero default_alpha (some [0, 0, 0])
        [0, 0, 0]).cohens_d = 0 ∧
    (calculate_no2_significance sf2_zero default_alpha (some [0, 0, 0])
        [0, 0, 0]).percent_change = 0 := by
  obtain ⟨v, hv, hd, hp⟩ := zero_division_guards sf2_zero default_alpha
    [0, 0, 0] [0, 0, 0] (by norm_num) (by norm_num)
  have hm : lmean [(0 : ℚ), 0, 0] = 0 := by norm_num [lmean]
  have hvv : lvar [(0 : ℚ), 0, 0] = 0 := by norm_num [lvar, hm]
  refine ⟨by rw [hv]; exact fun h => SigResult.noConfusion h, ?_, ?_⟩
  · rw [hv]
    show v.cohens_d = 0
    exact hd (by norm_num [pooled_var, hvv])
  · rw [hv]
    show v.percent_change = 0
    exact hp hm

/-! ## Statistics helper lemmas -/

/-- Structure-field reductions for `SigResult` accessors on a full verdict. -/
theorem sig_full_p_value (v : Verdict) : (SigResult.full v).p_value = v.p_value := rfl

/-- Significance accessor on a full verdict. -/
theorem sig_full_significant (v : Verdict) :
    (SigResult.full v).significant = v.significant := rfl

/-- Percent-change accessor on a full verdict. -/
theorem sig_full_percent_change (v : Verdict) :
    (SigResult.full v).percent_change = v.percent_change := rfl

/-- Cohen's-d accessor on a full verdict. -/
theorem sig_full_cohens_d (v : Verdict) :
    (SigResult.full v).cohens_d = v.cohens_d := rfl

/-- The p-value field of a computed verdict is the t-test p-value. -/
theorem compute_verdict_p (sf2 : ℚ → ℕ → ℚ) (alpha : ℚ) (a b : List ℚ) :
    (compute_verdict sf2 alpha a b).p_value = ttest_p sf2 a b := rfl

/-- The significance field of a computed verdict. -/
theorem compute_verdict_sig (sf2 : ℚ → ℕ → ℚ) (alpha : ℚ) (a b : List ℚ) :
    (compute_verdict sf2 alpha a b).significant = (ttest_p sf2 a b).ltQ alpha := rfl

/-- The t-statistic field of a computed verdict. -/
theorem compute_verdict_t (sf2 : ℚ → ℕ → ℚ) (alpha : ℚ) (a b : List ℚ) :
    (compute_verdict sf2 alpha a b).t_statistic = ttest_t a b := rfl

/-- The percent-change field of a computed verdict. -/
theorem compute_verdict_pc (sf2 : ℚ → ℕ → ℚ) (alpha : ℚ) (a b : List ℚ) :
    (compute_verdict sf2 alpha a b).percent_change =
      if lmean a ≠ 0 then (lmean b - lmean a) / lmean a * 100 else 0 := rfl

/-- The Cohen's-d field of a computed verdict. -/
theorem compute_verdict_d (sf2 : ℚ → ℕ → ℚ) (alpha : ℚ) (a b : List ℚ) :
    (compute_verdict sf2 alpha a b).cohens_d =
      if 0 < pooled_var a b then signed_sq (lmean b - lmean a) (pooled_var a b)
      else 0 := rfl

/-- A sample variance is never negative. -/
theorem lvar_nonneg (l : List ℚ) : 0 ≤ lvar l := by
  rcases l with _ | ⟨x, xs⟩
  · simp [lvar]
  · apply div_nonneg
    · apply List.sum_nonneg
      intro y hy
      obtain ⟨z, _, rfl⟩ := List.mem_map.mp hy
      positivity
    · have h1 : (0 : ℚ) < ((x :: xs).length : ℚ) := by
        exact_mod_cast List.length_pos.mpr (by simp)
      have h2 : (1 : ℚ) ≤ ((x :: xs).length : ℚ) := by
        exact_mod_cast Nat.succ_le_of_lt (List.length_pos.mpr (by simp))
      linarith

/-- The t-test denominator as pooled variance times the size factor. -/
theorem ttest_den2_eq (a b : List ℚ) :
    ttest_den2 a b = pooled_var a b * (1 / (a.length : ℚ) + 1 / (b.length : ℚ)) := rfl

/-- With at least 3 samples per group, the pooled variance is nonnegative and
vanishes exactly when both group variances vanish. -/
theorem pooled_var_zero_iff {a b : List ℚ} (ha : 3 ≤ a.length) (hb : 3 ≤ b.length) :
    (pooled_var a b = 0 ↔ lvar a = 0 ∧ lvar b = 0) ∧ 0 ≤ pooled_var a b := by
  have hna : (3 : ℚ) ≤ (a.length : ℚ) := by exact_mod_cast ha
  have hnb : (3 : ℚ) ≤ (b.length : ℚ) := by exact_mod_cast hb
  have hva := lvar_nonneg a
  have hvb := lvar_nonneg b
  have hdf : (0 : ℚ) < (a.length : ℚ) + (b.length : ℚ) - 2 := by linarith
  have hta : (0 : ℚ) ≤ ((a.length : ℚ) - 1) * lvar a :=
    mul_nonneg (by linarith) hva
  have htb : (0 : ℚ) ≤ ((b.length : ℚ) - 1) * lvar b :=
    mul_nonneg (by linarith) hvb
  have hS : 0 ≤ ((a.length : ℚ) - 1) * lvar a + ((b.length : ℚ) - 1) * lvar b := by
    linarith
  constructor
  · unfold pooled_var
    rw [div_eq_zero_iff]
    constructor
    · rintro (h | h)
      · have h1 : lvar a ≤ 0 := by nlinarith
        have h2 : lvar b ≤ 0 := by nlinarith
        exact ⟨le_antisymm h1 hva, le_antisymm h2 hvb⟩
      · linarith
    · rintro ⟨h1, h2⟩
      left; rw [h1, h2]; ring
  · unfold pooled_var; exact div_nonneg hS (le_of_lt hdf)

/-- With at least 3 samples per group, the squared t-test denominator is
positive exactly when some group variance is nonzero, and zero otherwise. -/
theorem ttest_den2_pos_iff {a b : List ℚ} (ha : 3 ≤ a.length) (hb : 3 ≤ b.length) :
    (0 < ttest_den2 a b ↔ ¬(lvar a = 0 ∧ lvar b = 0)) ∧
    (ttest_den2 a b = 0 ↔ lvar a = 0 ∧ lvar b = 0) := by
  obtain ⟨hiff, hnonneg⟩ := pooled_var_zero_iff ha hb
  have hla : (0 : ℚ) < (a.length : ℚ) := by exact_mod_cast (by omega : 0 < a.length)
  have hlb : (0 : ℚ) < (b.length : ℚ) := by exact_mod_cast (by omega : 0 < b.length)
  have hk : (0 : ℚ) < 1 / (a.length : ℚ) + 1 / (b.length : ℚ) :=
    add_pos (one_div_pos.mpr hla) (one_div_pos.mpr hlb)
  rw [ttest_den2_eq]
  constructor
  · constructor
    · intro h hcontra
      rw [hiff.mpr hcontra] at h
      simp at h
    · intro h
      have hp : 0 < pooled_var a b :=
        lt_of_le_of_ne hnonneg (Ne.symm fun hc => h (hiff.mp hc))
      exact mul_pos hp hk
  · constructor
    · intro h
      apply hiff.mp
      rcases mul_eq_zero.mp h with h | h
      · exact h
      · exact absurd h (ne_of_gt hk)
    · intro h
      rw [hiff.mpr h]
      ring

/-- The pooled variance is symmetric in the two groups. -/
theorem pooled_var_symm (a b : List ℚ) : pooled_var b a = pooled_var a b := by
  unfold pooled_var; ring

/-- The squared t-test denominator is symmetric in the two groups. -/
theorem ttest_den2_symm (a b : List ℚ) : ttest_den2 b a = ttest_den2 a b := by
  unfold ttest_den2; ring

/-- The squared t statistic is symmetric in the two groups. -/
theorem ttest_tsq_symm (a b : List ℚ) : ttest_tsq b a = ttest_tsq a b := by
  unfold ttest_tsq
  rw [ttest_den2_symm]
  ring

/-- The signed-square encoding negates with its first argument. -/
theorem signed_sq_neg (d s : ℚ) : signed_sq (-d) s = -signed_sq d s := by
  unfold signed_sq
  rcases lt_trichotomy d 0 with h | h | h
  · rw [if_pos (by linarith), if_neg (by linarith)]; ring
  · subst h; norm_num
  · rw [if_neg (by linarith), if_pos (by linarith)]; ring

/-- The two-sided p-value is invariant under swapping the two groups. -/
theorem ttest_p_symm (sf2 : ℚ → ℕ → ℚ) (a b : List ℚ) :
    ttest_p sf2 b a = ttest_p sf2 a b := by
  unfold ttest_p
  rw [ttest_den2_symm, ttest_tsq_symm, Nat.add_comm b.length a.length]
  by_cases h : 0 < ttest_den2 a b
  · rw [if_pos h, if_pos h]
  · rw [if_neg h, if_neg h]
    have hc : (lmean b - lmean a = 0) ↔ (lmean a - lmean b = 0) := by
      constructor <;> intro <;> linarith
    rw [if_congr hc rfl rfl]

/-- The mean is invariant under permutation of the samples. -/
theorem lmean_perm {a b : List ℚ} (h : a.Perm b) : lmean a = lmean b := by
  unfold lmean
  rw [h.sum_eq, h.length_eq]

/-- The sample variance is invariant under permutation of the samples. -/
theorem lvar_perm {a b : List ℚ} (h : a.Perm b) : lvar a = lvar b := by
  unfold lvar
  rw [lmean_perm h, h.length_eq, List.Perm.sum_eq (h.map _)]

/-- With at least 3 samples per group, the scipy squared t statistic equals
the textbook pooled-variance form. -/
theorem ttest_tsq_eq_pooled {a b : List ℚ} (ha : 3 ≤ a.length) (hb : 3 ≤ b.length) :
    ttest_tsq a b = pooled_tsq_spec a b := by
  have h3a : (3 : ℚ) ≤ (a.length : ℚ) := by exact_mod_cast ha
  have h3b : (3 : ℚ) ≤ (b.length : ℚ) := by exact_mod_cast hb
  have hna : ((a.length : ℚ)) ≠ 0 := by linarith
  have hnb : ((b.length : ℚ)) ≠ 0 := by linarith
  have hdf : ((a.length : ℚ) + (b.length : ℚ) - 2) ≠ 0 := by linarith
  have hsum : ((a.length : ℚ) + (b.length : ℚ)) ≠ 0 := by linarith
  unfold ttest_tsq ttest_den2 pooled_tsq_spec
  rcases eq_or_ne (((a.length : ℚ) - 1) * lvar a + ((b.length : ℚ) - 1) * lvar b) 0
    with hS | hS
  · rw [hS]
    simp
  · field_simp
    ring

/-! ## C4: finiteness of the verdict fields -/

/-- C4 (counterexample): two identical constant series of three samples each
pass the size gate; the t-test then divides 0 by 0, so the p-value is NaN,
yet `calculate_no2_significance` does NOT abort to the insufficient-data
sentinel — it returns the full verdict carrying the NaN p-value (any p-value
function gives the same outcome, since the NaN branch never consults it;
`sf2_zero` closes the statement). -/
theorem nan_pvalue_returned_not_sentinel :
    calculate_no2_significance sf2_zero default_alpha (some [10, 10, 10])
        [10, 10, 10] ≠ SigResult.insufficient ∧
    (calculate_no2_significance sf2_zero default_alpha (some [10, 10, 10])
        [10, 10, 10]).p_value = FVal.nan := by
  have hm : lmean [(10 : ℚ), 10, 10] = 10 := by norm_num [lmean]
  have hv : lvar [(10 : ℚ), 10, 10] = 0 := by norm_num [lvar, hm]
  have hden : ttest_den2 [(10 : ℚ), 10, 10] [(10 : ℚ), 10, 10] = 0 := by
    norm_num [ttest_den2, hv]
  have hfull : calculate_no2_significance sf2_zero default_alpha
      (some [10, 10, 10]) [10, 10, 10] =
      .full (compute_verdict sf2_zero default_alpha [10, 10, 10] [10, 10, 10]) := by
    simp only [calculate_no2_significance]
    rw [if_neg (by norm_num)]
  refine ⟨by rw [hfull]; exact fun h => SigResult.noConfusion h, ?_⟩
  rw [hfull, sig_full_p_value, compute_verdict_p]
  unfold ttest_p
  rw [if_neg (by rw [hden]; exact lt_irrefl 0), if_pos (by rw [hm]; ring)]

/-- C4 (amended): for groups of at least 3 samples the full verdict is
always returned — never the insufficient-data sentinel — and its means,
variances, percent change and Cohen's d are rationals, hence finite.  The
p-value is NaN exactly when both groups have zero variance AND equal means
(the 0/0 t statistic); a NaN p-value forces `significant = False`; and as
soon as one group has nonzero variance both the p-value and the t statistic
are finite.  No NaN/Inf abort to the sentinel exists in the code. -/
theorem verdict_finiteness_characterization (sf2 : ℚ → ℕ → ℚ) (alpha : ℚ)
    (a b : List ℚ) (ha : 3 ≤ a.length) (hb : 3 ≤ b.length) :
    ∃ v, calculate_no2_significance sf2 alpha (some b) a = .full v ∧
      (v.p_value = FVal.nan ↔ lvar a = 0 ∧ lvar b = 0 ∧ lmean a = lmean b) ∧
      (v.p_value = FVal.nan → v.significant = false) ∧
      ((lvar a ≠ 0 ∨ lvar b ≠ 0) →
        (∃ q, v.p_value = FVal.val q) ∧ ∃ r, v.t_statistic = FVal.val r) := by
  obtain ⟨hposiff, hzeroiff⟩ := ttest_den2_pos_iff ha hb
  have hk : (0 : ℚ) < 1 / (a.length : ℚ) + 1 / (b.length : ℚ) := by
    have hla : (0 : ℚ) < (a.length : ℚ) := by exact_mod_cast (by omega : 0 < a.length)
    have hlb : (0 : ℚ) < (b.length : ℚ) := by exact_mod_cast (by omega : 0 < b.length)
    exact add_pos (one_div_pos.mpr hla) (one_div_pos.mpr hlb)
  have hd2nn : 0 ≤ ttest_den2 a b := by
    rw [ttest_den2_eq]
    exact mul_nonneg (pooled_var_zero_iff ha hb).2 (le_of_lt hk)
  refine ⟨compute_verdict sf2 alpha a b, ?_, ?_, ?_, ?_⟩
  · simp only [calculate_no2_significance]
    rw [if_neg (by omega)]
  · rw [compute_verdict_p]
    unfold ttest_p
    constructor
    · intro hnan
      by_cases hpos : 0 < ttest_den2 a b
      · rw [if_pos hpos] at hnan
        exact absurd hnan (fun h => FVal.noConfusion h)
      · have hz : ttest_den2 a b = 0 := le_antisymm (not_lt.mp hpos) hd2nn
        obtain ⟨h1, h2⟩ := hzeroiff.mp hz
        rw [if_neg hpos] at hnan
        by_cases hdm : lmean a - lmean b = 0
        · exact ⟨h1, h2, by linarith⟩
        · rw [if_neg hdm] at hnan
          exact absurd hnan (fun h => FVal.noConfusion h)
    · rintro ⟨h1, h2, h3⟩
      have hz : ttest_den2 a b = 0 := hzeroiff.mpr ⟨h1, h2⟩
      rw [if_neg (by rw [hz]; exact lt_irrefl 0), if_pos (by rw [h3]; ring)]
  · intro hnan
    rw [compute_verdict_sig]
    rw [compute_verdict_p] at hnan
    rw [hnan]
    rfl
  · intro hvar
    have hpos : 0 < ttest_den2 a b := hposiff.mpr (by tauto)
    constructor
    · refine ⟨sf2 (ttest_tsq a b) (a.length + b.length - 2), ?_⟩
      rw [compute_verdict_p]
      unfold ttest_p
      rw [if_pos hpos]
    · refine ⟨signed_sq (lmean a - lmean b) (ttest_den2 a b), ?_⟩
      rw [compute_verdict_t]
      unfold ttest_t
      rw [if_pos hpos]

/-- C4 witness: two spread-out series of three samples each produce a full
verdict with a finite p-value and t statistic. -/
theorem verdict_finiteness_characterization_witness :
    calculate_no2_significance sf2_zero default_alpha (some [4, 5, 6])
        [1, 2, 3] ≠ SigResult.insufficient ∧
    (calculate_no2_significance sf2_zero default_alpha (some [4, 5, 6])
        [1, 2, 3]).p_value ≠ FVal.nan := by
  obtain ⟨v, hv, _, _, hfin⟩ := verdict_finiteness_characterization sf2_zero
    default_alpha [1, 2, 3] [4, 5, 6] (by norm_num) (by norm_num)
  have hvar : lvar [(1 : ℚ), 2, 3] ≠ 0 := by
    have hm : lmean [(1 : ℚ), 2, 3] = 2 := by norm_num [lmean]
    norm_num [lvar, hm]
  obtain ⟨⟨q, hq⟩, _⟩ := hfin (Or.inl hvar)
  constructor
  · rw [hv]
    exact fun h => SigResult.noConfusion h
  · rw [hv, sig_full_p_value, hq]
    exact fun h => FVal.noConfusion h

/-! ## C8: swap symmetry of the significance comparison -/

/-- Sign behaviour of the percent change under swapping, for group means of
one common strict sign. -/
theorem pc_sign_flip {tm bm : ℚ} (h : 0 < tm * bm) :
    (0 < (tm - bm) / bm * 100 → (bm - tm) / tm * 100 < 0) ∧
    ((tm - bm) / bm * 100 < 0 → 0 < (bm - tm) / tm * 100) ∧
    ((tm - bm) / bm * 100 = 0 → (bm - tm) / tm * 100 = 0) := by
  have htm : tm ≠ 0 := by rintro rfl; simp at h
  have hbm : bm ≠ 0 := by rintro rfl; simp at h
  have hq : 0 < bm / tm := by
    rcases mul_pos_iff.mp h with ⟨h1, h2⟩ | ⟨h1, h2⟩
    · exact div_pos h2 h1
    · exact div_pos_iff.mpr (Or.inr ⟨h2, h1⟩)
  have key : (bm - tm) / tm * 100 = -((tm - bm) / bm * 100 * (bm / tm)) := by
    field_simp
    ring
  refine ⟨?_, ?_, ?_⟩
  · intro hp
    rw [key]
    have := mul_pos hp hq
    linarith
  · intro hn
    rw [key]
    have := mul_neg_of_neg_of_pos hn hq
    linarith
  · intro hz
    rw [key, hz]
    ring

/-- C8 (counterexample): target series `[1, 2, 3]` (mean 2) against baseline
`[-4, -2, 0]` (mean −2).  The percent change is −200 in BOTH orders of the
comparison — swapping target and baseline does not negate its sign when the
two means have opposite signs — refuting the claimed unconditional sign
negation. -/
theorem swap_percent_change_sign_not_negated :
    (calculate_no2_significance sf2_zero default_alpha (some [1, 2, 3])
        [-4, -2, 0]).percent_change = -200 ∧
    (calculate_no2_significance sf2_zero default_alpha (some [-4, -2, 0])
        [1, 2, 3]).percent_change = -200 := by
  have hmt : lmean [(1 : ℚ), 2, 3] = 2 := by norm_num [lmean]
  have hmb : lmean [(-4 : ℚ), -2, 0] = -2 := by norm_num [lmean]
  have e1 : calculate_no2_significance sf2_zero default_alpha (some [1, 2, 3])
      [-4, -2, 0] =
      .full (compute_verdict sf2_zero default_alpha [-4, -2, 0] [1, 2, 3]) := by
    simp only [calculate_no2_significance]
    rw [if_neg (by norm_num)]
  have e2 : calculate_no2_significance sf2_zero default_alpha (some [-4, -2, 0])
      [1, 2, 3] =
      .full (compute_verdict sf2_zero default_alpha [1, 2, 3] [-4, -2, 0]) := by
    simp only [calculate_no2_significance]
    rw [if_neg (by norm_num)]
  constructor
  · rw [e1, sig_full_percent_change, compute_verdict_pc, if_pos (by rw [hmb]; norm_num),
      hmb, hmt]
    norm_num
  · rw [e2, sig_full_percent_change, compute_verdict_pc, if_pos (by rw [hmt]; norm_num),
      hmb, hmt]
    norm_num

/-- C8 (amended): for series of at least 3 samples each, swapping target and
baseline negates Cohen's d and leaves the two-sided p-value and the
significance flag unchanged; the sign of the percent change is negated
PROVIDED the two group means are nonzero and share one sign (the
counterexample shows the proviso is necessary when the means have opposite
signs). -/
theorem swap_symmetry_amended (sf2 : ℚ → ℕ → ℚ) (alpha : ℚ) (t b : List ℚ)
    (ht : 3 ≤ t.length) (hb : 3 ≤ b.length) :
    (calculate_no2_significance sf2 alpha (some b) t).cohens_d =
      -(calculate_no2_significance sf2 alpha (some t) b).cohens_d ∧
    (calculate_no2_significance sf2 alpha (some b) t).p_value =
      (calculate_no2_significance sf2 alpha (some t) b).p_value ∧
    (calculate_no2_significance sf2 alpha (some b) t).significant =
      (calculate_no2_significance sf2 alpha (some t) b).significant ∧
    (0 < lmean t * lmean b →
      (0 < (calculate_no2_significance sf2 alpha (some t) b).percent_change →
        (calculate_no2_significance sf2 alpha (some b) t).percent_change < 0) ∧
      ((calculate_no2_significance sf2 alpha (some t) b).percent_change < 0 →
        0 < (calculate_no2_significance sf2 alpha (some b) t).percent_change) ∧
      ((calculate_no2_significance sf2 alpha (some t) b).percent_change = 0 →
        (calculate_no2_significance sf2 alpha (some b) t).percent_change = 0)) := by
  have e1 : calculate_no2_significance sf2 alpha (some t) b =
      .full (compute_verdict sf2 alpha b t) := by
    simp only [calculate_no2_significance]
    rw [if_neg (by omega)]
  have e2 : calculate_no2_significance sf2 alpha (some b) t =
      .full (compute_verdict sf2 alpha t b) := by
    simp only [calculate_no2_significance]
    rw [if_neg (by omega)]
  rw [e1, e2, sig_full_cohens_d, sig_full_cohens_d, sig_full_p_value,
    sig_full_p_value, sig_full_significant, sig_full_significant,
    sig_full_percent_change, sig_full_percent_change]
  refine ⟨?_, ?_, ?_, ?_⟩
  · rw [compute_verdict_d, compute_verdict_d, pooled_var_symm b t]
    by_cases hpool : 0 < pooled_var b t
    · rw [if_pos hpool, if_pos hpool,
        show lmean b - lmean t = -(lmean t - lmean b) from by ring, signed_sq_neg]
    · rw [if_neg hpool, if_neg hpool]
      ring
  · rw [compute_verdict_p, compute_verdict_p, ttest_p_symm sf2 b t]
  · rw [compute_verdict_sig, compute_verdict_sig, ttest_p_symm sf2 b t]
  · intro hsign
    have hmt : lmean t ≠ 0 := by rintro hz; rw [hz] at hsign; simp at hsign
    have hmb : lmean b ≠ 0 := by rintro hz; rw [hz] at hsign; simp at hsign
    rw [compute_verdict_pc, compute_verdict_pc, if_pos hmb, if_pos hmt]
    exact pc_sign_flip hsign

/-- C8 witness: target `[1, 2, 3]`, baseline `[4, 5, 6]` (both means
positive): Cohen's d is negated by the swap and a negative percent change
becomes positive. -/
theorem swap_symmetry_amended_witness :
    (calculate_no2_significance sf2_zero default_alpha (some [4, 5, 6])
        [1, 2, 3]).cohens_d =
      -(calculate_no2_significance sf2_zero default_alpha (some [1, 2, 3])
        [4, 5, 6]).cohens_d ∧
    (calculate_no2_significance sf2_zero default_alpha (some [1, 2, 3])
        [4, 5, 6]).percent_change < 0 ∧
    0 < (calculate_no2_significance sf2_zero default_alpha (some [4, 5, 6])
        [1, 2, 3]).percent_change := by
  have h := swap_symmetry_amended sf2_zero default_alpha [1, 2, 3] [4, 5, 6]
    (by norm_num) (by norm_num)
  have hsign : (0 : ℚ) < lmean [1, 2, 3] * lmean [4, 5, 6] := by
    norm_num [lmean]
  have e1 : calculate_no2_significance sf2_zero default_alpha (some [1, 2, 3])
      [4, 5, 6] =
      .full (compute_verdict sf2_zero default_alpha [4, 5, 6] [1, 2, 3]) := by
    simp only [calculate_no2_significance]
    rw [if_neg (by norm_num)]
  have hm1 : lmean [(1 : ℚ), 2, 3] = 2 := by norm_num [lmean]
  have hm2 : lmean [(4 : ℚ), 5, 6] = 5 := by norm_num [lmean]
  have hpc : (calculate_no2_significance sf2_zero default_alpha (some [1, 2, 3])
      [4, 5, 6]).percent_change < 0 := by
    rw [e1, sig_full_percent_change, compute_verdict_pc,
      if_pos (by rw [hm2]; norm_num), hm1, hm2]
    norm_num
  exact ⟨h.1, hpc, (h.2.2.2 hsign).2.1 hpc⟩

/-! ## C3: the nature of the hypothesis test -/

/-- C3 (counterexample): baseline `[0, 0, 6]` (variance 12), target
`[1, 1, 1, 1]` (variance 0) — groups of unequal variance and size.  The
source's `ttest_ind` call (scipy default `equal_var=True`) produces the
pooled-variance squared t statistic 5/14; a Welch (unequal-variance) test
would produce 1/4.  The t statistic carried by the returned verdict is the
pooled one, so the test is not Welch-style. -/
theorem ttest_not_welch :
    ttest_tsq [0, 0, 6] [1, 1, 1, 1] = 5 / 14 ∧
    welch_tsq_spec [0, 0, 6] [1, 1, 1, 1] = 1 / 4 ∧
    ttest_tsq [0, 0, 6] [1, 1, 1, 1] ≠ welch_tsq_spec [0, 0, 6] [1, 1, 1, 1] ∧
    calculate_no2_significance sf2_zero default_alpha (some [1, 1, 1, 1])
        [0, 0, 6] =
      .full (compute_verdict sf2_zero default_alpha [0, 0, 6] [1, 1, 1, 1]) ∧
    (compute_verdict sf2_zero default_alpha [0, 0, 6] [1, 1, 1, 1]).t_statistic =
      FVal.val (ttest_tsq [0, 0, 6] [1, 1, 1, 1]) := by
  have hma : lmean [(0 : ℚ), 0, 6] = 2 := by norm_num [lmean]
  have hva : lvar [(0 : ℚ), 0, 6] = 12 := by norm_num [lvar, hma]
  have hmb : lmean [(1 : ℚ), 1, 1, 1] = 1 := by norm_num [lmean]
  have hvb : lvar [(1 : ℚ), 1, 1, 1] = 0 := by norm_num [lvar, hmb]
  have hden : ttest_den2 [(0 : ℚ), 0, 6] [(1 : ℚ), 1, 1, 1] = 14 / 5 := by
    norm_num [ttest_den2, hva, hvb]
  have htsq : ttest_tsq [(0 : ℚ), 0, 6] [(1 : ℚ), 1, 1, 1] = 5 / 14 := by
    norm_num [ttest_tsq, hden, hma, hmb]
  have hwel : welch_tsq_spec [(0 : ℚ), 0, 6] [(1 : ℚ), 1, 1, 1] = 1 / 4 := by
    norm_num [welch_tsq_spec, hva, hvb, hma, hmb]
  refine ⟨htsq, hwel, by rw [htsq, hwel]; norm_num, ?_, ?_⟩
  · simp only [calculate_no2_significance]
    rw [if_neg (by norm_num)]
  · rw [compute_verdict_t]
    unfold ttest_t
    rw [if_pos (by rw [hden]; norm_num)]
    unfold signed_sq ttest_tsq
    rw [if_pos (by rw [hma, hmb]; norm_num)]

/-- C3 (amended): with at least 3 samples per group, the test performed by
`calculate_no2_significance` is the unpaired two-sample Student's t-test with
POOLED variance (scipy `ttest_ind` default `equal_var=True`, assuming equal
variances rather than tolerating unequal ones): its squared t statistic
equals the textbook pooled form, the whole verdict is invariant under
permutation of either sample (unpaired), and in the nondegenerate case the
verdict carries that t statistic and the two-sided p-value evaluated at it
with `n1 + n2 - 2` degrees of freedom. -/
theorem ttest_pooled_unpaired (sf2 : ℚ → ℕ → ℚ) (alpha : ℚ)
    (a b a2 b2 : List ℚ) (ha : 3 ≤ a.length) (hb : 3 ≤ b.length)
    (hpa : a.Perm a2) (hpb : b.Perm b2) :
    ttest_tsq a b = pooled_tsq_spec a b ∧
    compute_verdict sf2 alpha a b = compute_verdict sf2 alpha a2 b2 ∧
    ∃ v, calculate_no2_significance sf2 alpha (some b) a = .full v ∧
      (0 < ttest_den2 a b →
        v.p_value = FVal.val (sf2 (pooled_tsq_spec a b) (a.length + b.length - 2)) ∧
        v.t_statistic = FVal.val (signed_sq (lmean a - lmean b) (ttest_den2 a b))) := by
  refine ⟨ttest_tsq_eq_pooled ha hb, ?_, compute_verdict sf2 alpha a b, ?_, ?_⟩
  · unfold compute_verdict ttest_p ttest_t ttest_tsq ttest_den2 pooled_var
    simp only [lmean_perm hpa, lmean_perm hpb, lvar_perm hpa, lvar_perm hpb,
      hpa.length_eq, hpb.length_eq]
  · simp only [calculate_no2_significance]
    rw [if_neg (by omega)]
  · intro hpos
    constructor
    · rw [compute_verdict_p]
      unfold ttest_p
      rw [if_pos hpos, ttest_tsq_eq_pooled ha hb]
    · rw [compute_verdict_t]
      unfold ttest_t
      rw [if_pos hpos]

/-- C3 witness: concrete groups and concrete permutations of them. -/
theorem ttest_pooled_unpaired_witness :
    ttest_tsq [0, 0, 6] [1, 2, 3] = pooled_tsq_spec [0, 0, 6] [1, 2, 3] ∧
    compute_verdict sf2_zero default_alpha [0, 0, 6] [1, 2, 3] =
      compute_verdict sf2_zero default_alpha [0, 6, 0] [1, 3, 2] := by
  have h := ttest_pooled_unpaired sf2_zero default_alpha [0, 0, 6] [1, 2, 3]
    [0, 6, 0] [1, 3, 2] (by norm_num) (by norm_num)
    (List.Perm.cons 0 (List.Perm.swap 6 0 []))
    (List.Perm.cons 1 (List.Perm.swap 3 2 []))
  exact ⟨h.1, h.2.1⟩

/-! ## C5: monthly aggregation -/

/-- Filtering a replicated element maps to a replicated result. -/
theorem filterMap_replicate_some {α β : Type} (f : α → Option β) (a : α) (b : β)
    (hf : f a = some b) (n : ℕ) :
    (List.replicate n a).filterMap f = List.replicate n b := by
  induction n with
  | zero => rfl
  | succ n ih => simp [List.replicate_succ, List.filterMap_cons, hf, ih]

/-- C5 (amended): with `require_all_days` set, a month whose grid count
differs from its calendar day count is skipped; with all days present the
output pixel is the mean of the valid (finite, non-nodata) samples at that
pixel, it is −9999 whenever every daily grid is invalid there, and the
converse — −9999 only where every daily grid is invalid — holds provided the
mean of the valid samples is not itself exactly −9999 (a data value colliding
with the sentinel is indistinguishable from nodata). -/
theorem monthly_aggregation_spec (y m w : ℕ) (grids : List DailyGrid) :
    (grids.length ≠ month_length y m →
      aggregate_daily_to_monthly y m true grids w = none) ∧
    (grids.length = month_length y m →
      ∃ out, aggregate_daily_to_monthly y m true grids w = some out ∧
        out.length = w ∧
        ∀ i, i < w →
          (pixel_samples grids i = [] ↔
            ∀ g ∈ grids, (to_nan g).getD i none = none) ∧
          ((∀ g ∈ grids, (to_nan g).getD i none = none) →
            out.getD i 0 = -9999) ∧
          (pixel_samples grids i ≠ [] →
            out.getD i 0 = lmean (pixel_samples grids i)) ∧
          (lmean (pixel_samples grids i) ≠ -9999 →
            (out.getD i 0 = -9999 ↔
              ∀ g ∈ grids, (to_nan g).getD i none = none))) := by
  have hempty : ∀ i, pixel_samples grids i = [] ↔
      ∀ g ∈ grids, (to_nan g).getD i none = none := by
    intro i
    unfold pixel_samples
    exact List.filterMap_eq_nil_iff
  constructor
  · intro h
    unfold aggregate_daily_to_monthly
    rw [if_pos ⟨rfl, h⟩]
  · intro h
    refine ⟨(List.range w).map (nanmean_pixel grids), ?_, by simp, ?_⟩
    · unfold aggregate_daily_to_monthly
      rw [if_neg (fun hc => hc.2 h)]
    · intro i hi
      have hgd : ((List.range w).map (nanmean_pixel grids)).getD i 0 =
          nanmean_pixel grids i := by
        rw [List.getD_eq_getElem?_getD, List.getElem?_map, List.getElem?_range hi]
        rfl
      refine ⟨hempty i, ?_, ?_, ?_⟩
      · intro hall
        rw [hgd]
        unfold nanmean_pixel
        rw [if_pos ((hempty i).mpr hall)]
      · intro hne
        rw [hgd]
        unfold nanmean_pixel
        rw [if_neg hne]
      · intro hcol
        rw [hgd]
        unfold nanmean_pixel
        by_cases hs : pixel_samples grids i = []
        · rw [if_pos hs]
          exact ⟨fun _ => (hempty i).mp hs, fun _ => rfl⟩
        · rw [if_neg hs]
          exact ⟨fun hc => absurd hc hcol,
            fun hall => absurd ((hempty i).mpr hall) hs⟩

/-- C5 (counterexample): a full 28-day February 2021 stack whose single
pixel carries the FINITE value −9999 in every daily grid (the files' own
nodata tag is absent, so the value is valid data).  The composite pixel is
−9999 — equal to the output nodata sentinel — although no daily grid was
nodata/non-finite there, refuting the claimed "exactly when" equivalence. -/
theorem monthly_aggregation_sentinel_collision :
    aggregate_daily_to_monthly 2021 2 true
        (List.replicate 28 ⟨[some (-9999)], none⟩) 1 = some [-9999] ∧
    (to_nan (⟨[some (-9999)], none⟩ : DailyGrid)).getD 0 none =
      some (-9999) := by
  have hsamp : pixel_samples (List.replicate 28 ⟨[some (-9999)], none⟩) 0 =
      List.replicate 28 (-9999 : ℚ) := by
    unfold pixel_samples
    exact filterMap_replicate_some _ _ _ (by simp [to_nan]) 28
  have hmean : lmean (List.replicate 28 ((-9999 : ℚ))) = -9999 := by
    unfold lmean
    rw [List.sum_replicate, List.length_replicate]
    push_cast
    norm_num
  constructor
  · unfold aggregate_daily_to_monthly
    rw [if_neg (by simp [month_length, is_leap])]
    rw [show List.range 1 = [0] from by decide]
    simp only [List.map_cons, List.map_nil]
    unfold nanmean_pixel
    rw [hsamp, if_neg (by simp), hmean]
  · simp [to_nan]

/-- C5 witness: February 2021 with 27 grids is skipped; with all 28 grids of
a single valid pixel 5 the composite exists and its pixel is the mean 5. -/
theorem monthly_aggregation_spec_witness :
    aggregate_daily_to_monthly 2021 2 true
        (List.replicate 27 ⟨[some 5], none⟩) 1 = none ∧
    ((aggregate_daily_to_monthly 2021 2 true
        (List.replicate 28 ⟨[some 5], none⟩) 1).getD []).getD 0 0 =
      lmean (pixel_samples (List.replicate 28 ⟨[some 5], none⟩) 0) := by
  constructor
  · exact (monthly_aggregation_spec 2021 2 1 _).1 (by simp [month_length, is_leap])
  · obtain ⟨out, hout, _, hpx⟩ :=
      (monthly_aggregation_spec 2021 2 1 (List.replicate 28 ⟨[some 5], none⟩)).2
        (by simp [month_length, is_leap])
    have hne : pixel_samples (List.replicate 28 ⟨[some 5], none⟩) 0 ≠ [] := by
      unfold pixel_samples
      rw [filterMap_replicate_some _ _ (5 : ℚ) (by simp [to_nan]) 28]
      simp
    rw [hout]
    exact ((hpx 0 (by norm_num)).2.2.1) hne

/-! ## C9: period parsing helper lemmas -/

/-- A rendered digit is a digit character and none of the separator or sign
characters. -/
theorem digit_char_basic (d : ℕ) :
    isDig (digit_char d) = true ∧ digit_char d ≠ '_' ∧ digit_char d ≠ '-' ∧
      digit_char d ≠ '+' := by
  match d with
  | 0 | 1 | 2 | 3 | 4 | 5 | 6 | 7 | 8 =>
    exact ⟨by decide, by decide, by decide, by decide⟩
  | n + 9 =>
    have h : digit_char (n + 9) = '9' := rfl
    rw [h]
    exact ⟨by decide, by decide, by decide, by decide⟩

/-- Rendering then reading a digit below 10 is the identity. -/
theorem dval_digit_char {d : ℕ} (h : d < 10) : dval (digit_char d) = d := by
  interval_cases d <;> decide

/-- Python `int()` reads back the 4-digit zero-padded rendering. -/
theorem py_nat_pad4 {y : ℕ} (hy : y ≤ 9999) : py_nat (pad4 y) = some y := by
  have h3 : y / 1000 % 10 < 10 := Nat.mod_lt _ (by norm_num)
  have h2 : y / 100 % 10 < 10 := Nat.mod_lt _ (by norm_num)
  have h1 : y / 10 % 10 < 10 := Nat.mod_lt _ (by norm_num)
  have h0 : y % 10 < 10 := Nat.mod_lt _ (by norm_num)
  have i3 := (digit_char_basic (y / 1000 % 10)).1
  have i2 := (digit_char_basic (y / 100 % 10)).1
  have i1 := (digit_char_basic (y / 10 % 10)).1
  have i0 := (digit_char_basic (y % 10)).1
  simp only [pad4, py_nat, py_digits, i3, i2, i1, i0, if_true,
    dval_digit_char h3, dval_digit_char h2, dval_digit_char h1,
    dval_digit_char h0, Option.some.injEq]
  omega

/-- Python `int()` reads back the 2-digit zero-padded rendering. -/
theorem py_nat_pad2 {m : ℕ} (hm : m ≤ 99) : py_nat (pad2 m) = some m := by
  have h1 : m / 10 % 10 < 10 := Nat.mod_lt _ (by norm_num)
  have h0 : m % 10 < 10 := Nat.mod_lt _ (by norm_num)
  have i1 := (digit_char_basic (m / 10 % 10)).1
  have i0 := (digit_char_basic (m % 10)).1
  simp only [pad2, py_nat, py_digits, i1, i0, if_true,
    dval_digit_char h1, dval_digit_char h0, Option.some.injEq]
  omega

/-- Signed Python `int()` on the 4-digit rendering. -/
theorem py_int_pad4 {y : ℕ} (hy : y ≤ 9999) : py_int (pad4 y) = some (y : ℤ) := by
  obtain ⟨_, _, m3, p3⟩ := digit_char_basic (y / 1000 % 10)
  rw [show pad4 y = digit_char (y / 1000 % 10) ::
    [digit_char (y / 100 % 10), digit_char (y / 10 % 10), digit_char (y % 10)]
    from rfl]
  simp only [py_int]
  rw [if_neg m3, if_neg p3]
  rw [show (digit_char (y / 1000 % 10) ::
    [digit_char (y / 100 % 10), digit_char (y / 10 % 10), digit_char (y % 10)]) =
    pad4 y from rfl]
  rw [py_nat_pad4 hy]
  rfl

/-- Signed Python `int()` on the 2-digit rendering. -/
theorem py_int_pad2 {m : ℕ} (hm : m ≤ 99) : py_int (pad2 m) = some (m : ℤ) := by
  obtain ⟨_, _, m1, p1⟩ := digit_char_basic (m / 10 % 10)
  rw [show pad2 m = digit_char (m / 10 % 10) :: [digit_char (m % 10)] from rfl]
  simp only [py_int]
  rw [if_neg m1, if_neg p1]
  rw [show (digit_char (m / 10 % 10) :: [digit_char (m % 10)]) = pad2 m from rfl]
  rw [py_nat_pad2 hm]
  rfl

/-- `datetime` construction succeeds on in-range natural year and month. -/
theorem mk_datetime_nat {y m : ℕ} (hy1 : 1 ≤ y) (hy2 : y ≤ 9999)
    (hm1 : 1 ≤ m) (hm2 : m ≤ 12) :
    mk_datetime (y : ℤ) (m : ℤ) = some (y, m) := by
  unfold mk_datetime
  rw [if_pos (by refine ⟨?_, ?_, ?_, ?_⟩ <;> exact_mod_cast by omega)]
  simp

/-- Splitting a list without the separator returns the single part. -/
theorem split_on_char_not_mem {c : Char} {l : List Char} (h : c ∉ l) :
    split_on_char c l = [l] := by
  induction l with
  | nil => rfl
  | cons x xs ih =>
    have hx : ¬ x = c := fun hc => h (hc ▸ List.mem_cons_self x xs)
    have h2 : c ∉ xs := fun hm => h (List.mem_cons_of_mem _ hm)
    simp [split_on_char, hx, ih h2]

/-- Splitting around a single separator occurrence yields the two parts. -/
theorem split_on_char_append {c : Char} {l1 l2 : List Char} (h : c ∉ l1) :
    split_on_char c (l1 ++ c :: l2) = l1 :: split_on_char c l2 := by
  induction l1 with
  | nil => simp [split_on_char]
  | cons x xs ih =>
    have hx : ¬ x = c := fun hc => h (hc ▸ List.mem_cons_self x xs)
    have h2 : c ∉ xs := fun hm => h (List.mem_cons_of_mem _ hm)
    simp [split_on_char, hx, ih h2]

/-- The underscore does not occur among rendered year digits. -/
theorem underscore_not_mem_pad4 (y : ℕ) : '_' ∉ pad4 y := by
  simp only [pad4, List.mem_cons, List.not_mem_nil, or_false]
  push_neg
  refine ⟨?_, ?_, ?_, ?_⟩ <;> exact fun hq => (digit_char_basic _).2.1 hq.symm

/-- The underscore does not occur among rendered month digits. -/
theorem underscore_not_mem_pad2 (m : ℕ) : '_' ∉ pad2 m := by
  simp only [pad2, List.mem_cons, List.not_mem_nil, or_false]
  push_neg
  refine ⟨?_, ?_⟩ <;> exact fun hq => (digit_char_basic _).2.1 hq.symm

/-- The dash does not occur among rendered year digits. -/
theorem dash_not_mem_pad4 (y : ℕ) : '-' ∉ pad4 y := by
  simp only [pad4, List.mem_cons, List.not_mem_nil, or_false]
  push_neg
  refine ⟨?_, ?_, ?_, ?_⟩ <;> exact fun hq => (digit_char_basic _).2.2.1 hq.symm

/-- The dash does not occur among rendered month digits. -/
theorem dash_not_mem_pad2 (m : ℕ) : '-' ∉ pad2 m := by
  simp only [pad2, List.mem_cons, List.not_mem_nil, or_false]
  push_neg
  refine ⟨?_, ?_⟩ <;> exact fun hq => (digit_char_basic _).2.2.1 hq.symm

/-- The dash-formatted period contains no underscore. -/
theorem underscore_not_mem_fmtD (y m : ℕ) : '_' ∉ format_period_d y m := by
  unfold format_period_d
  intro hmem
  rcases List.mem_append.mp hmem with h | h
  · exact underscore_not_mem_pad4 y h
  · rcases List.mem_cons.mp h with h | h
    · exact absurd h (by decide)
    · exact underscore_not_mem_pad2 m h

/-- Parsing the underscore format recovers the year and month. -/
theorem parse_fmtU {y m : ℕ} (hy1 : 1 ≤ y) (hy2 : y ≤ 9999)
    (hm1 : 1 ≤ m) (hm2 : m ≤ 12) :
    _parse_period (.str (format_period_u y m)) = some (y, m) := by
  have hu : '_' ∈ format_period_u y m := by
    unfold format_period_u
    exact List.mem_append.mpr (Or.inr (List.mem_cons_self _ _))
  have hsplit : split_on_char '_' (format_period_u y m) = [pad4 y, pad2 m] := by
    unfold format_period_u
    rw [split_on_char_append (underscore_not_mem_pad4 y),
      split_on_char_not_mem (underscore_not_mem_pad2 m)]
  simp only [_parse_period]
  rw [if_pos hu, hsplit]
  show (py_int (pad4 y)).bind
    (fun yy => (py_int (pad2 m)).bind fun mm => mk_datetime yy mm) = some (y, m)
  rw [py_int_pad4 hy2, py_int_pad2 (by omega)]
  show mk_datetime (y : ℤ) (m : ℤ) = some (y, m)
  exact mk_datetime_nat hy1 hy2 hm1 hm2

/-- Parsing the dash format recovers the year and month. -/
theorem parse_fmtD {y m : ℕ} (hy1 : 1 ≤ y) (hy2 : y ≤ 9999)
    (hm1 : 1 ≤ m) (hm2 : m ≤ 12) :
    _parse_period (.str (format_period_d y m)) = some (y, m) := by
  have hd : '-' ∈ format_period_d y m := by
    unfold format_period_d
    exact List.mem_append.mpr (Or.inr (List.mem_cons_self _ _))
  have hsplit : split_on_char '-' (format_period_d y m) = [pad4 y, pad2 m] := by
    unfold format_period_d
    rw [split_on_char_append (dash_not_mem_pad4 y),
      split_on_char_not_mem (dash_not_mem_pad2 m)]
  simp only [_parse_period]
  rw [if_neg (underscore_not_mem_fmtD y m), if_pos hd, hsplit]
  show (py_int (pad4 y)).bind
    (fun yy => (py_int (pad2 m)).bind fun mm => mk_datetime yy mm) = some (y, m)
  rw [py_int_pad4 hy2, py_int_pad2 (by omega)]
  show mk_datetime (y : ℤ) (m : ℤ) = some (y, m)
  exact mk_datetime_nat hy1 hy2 hm1 hm2

/-- The bare-year baseline branch pairs the year with the target month. -/
theorem resolve_bare_year {y tm : ℕ} (hy1 : 1 ≤ y) (hy2 : y ≤ 9999)
    (ht1 : 1 ≤ tm) (ht2 : tm ≤ 12) :
    resolve_baseline_period tm (.str (pad4 y)) = some (y, tm) := by
  simp only [resolve_baseline_period]
  rw [if_pos (by rfl)]
  rw [py_int_pad4 hy2]
  show mk_datetime (y : ℤ) (tm : ℤ) = some (y, tm)
  exact mk_datetime_nat hy1 hy2 ht1 ht2

/-- A separator-free string that is not 4 characters long fails to resolve. -/
theorem resolve_no_sep {tm : ℕ} {s : List Char} (h1 : '_' ∉ s) (h2 : '-' ∉ s)
    (h3 : s.length ≠ 4) :
    resolve_baseline_period tm (.str s) = none := by
  simp only [resolve_baseline_period]
  rw [if_neg h3]
  simp only [_parse_period]
  rw [if_neg h1, if_neg h2]

/-- C9 (counterexample): the string `"2019_1"` matches none of the accepted
formats — it is not `"YYYY_MM"` (6 characters, one-digit month), not
`"YYYY-MM"`, not a 4-digit bare year, and not a calendar-date value — yet
`_parse_period` resolves it to (2019, 1) instead of failing with a parse
error, because the code matches merely on the presence of the separator and
never checks the digit counts. -/
theorem parse_period_lenient_counterexample :
    matches_accepted_format ['2', '0', '1', '9', '_', '1'] = false ∧
    _parse_period (.str ['2', '0', '1', '9', '_', '1']) = some (2019, 1) := by
  constructor <;> decide

/-- C9 (amended): period resolution round-trips on every valid (year, month)
pair for the underscore format, the dash format, a native calendar-date value
and (through the baseline branch with a caller-supplied target month) the
4-digit bare-year rendering; and every separator-free string other than a
4-character one fails with a parse error.  Separator-bearing strings,
however, are split and parsed leniently without enforcing the digit counts of
the declared formats (see the counterexample). -/
theorem period_resolution_roundtrip (y m tm : ℕ) (hy1 : 1 ≤ y)
    (hy2 : y ≤ 9999) (hm1 : 1 ≤ m) (hm2 : m ≤ 12) (ht1 : 1 ≤ tm)
    (ht2 : tm ≤ 12) :
    _parse_period (.str (format_period_u y m)) = some (y, m) ∧
    _parse_period (.str (format_period_d y m)) = some (y, m) ∧
    _parse_period (.dt y m) = some (y, m) ∧
    resolve_baseline_period tm (.str (pad4 y)) = some (y, tm) ∧
    ∀ s : List Char, '_' ∉ s → '-' ∉ s → s.length ≠ 4 →
      resolve_baseline_period tm (.str s) = none :=
  ⟨parse_fmtU hy1 hy2 hm1 hm2, parse_fmtD hy1 hy2 hm1 hm2, rfl,
   resolve_bare_year hy1 hy2 ht1 ht2,
   fun _ h1 h2 h3 => resolve_no_sep h1 h2 h3⟩

/-- C9 witness: the round trip at (2019, 4) with target month 7, and the
failure of the separator-free two-character string `"xy"`. -/
theorem period_resolution_roundtrip_witness :
    _parse_period (.str (format_period_u 2019 4)) = some (2019, 4) ∧
    _parse_period (.str (format_period_d 2019 4)) = some (2019, 4) ∧
    resolve_baseline_period 7 (.str (pad4 2019)) = some (2019, 7) ∧
    resolve_baseline_period 7 (.str ['x', 'y']) = none := by
  have h := period_resolution_roundtrip 2019 4 7 (by norm_num) (by norm_num)
    (by norm_num) (by norm_num) (by norm_num) (by norm_num)
  exact ⟨h.1, h.2.1, h.2.2.2.1,
    h.2.2.2.2 ['x', 'y'] (by decide) (by decide) (by decide)⟩
